import Mathlib

/-!
Formal model of the Phoenix-vNext cardinality observer
(`phoenix-bench/legacy/phoenix-cardinality-observer.py`, duplicated verbatim in
`phoenix-bench/phoenix-toolkit.py` as `PhoenixCardinalityObserver`).

Modelling conventions:
* Python `float` threshold arithmetic is modelled as exact rational (`ℚ`)
  arithmetic; every concrete threshold used in the claims is a small integer,
  where float and rational computation agree.
* Python `int(x)` truncates toward zero; `pyInt` below models it exactly.
* Wall-clock timestamps are abstracted as a `ℕ` parameter `ts`; fields derived
  from the emission time (`last_updated`, `config_version`, `correlation_id`,
  `transition_timestamp`) carry that parameter.
* The human-readable `reason` f-string is modelled as an inductive `Reason`
  carrying the same data the Python string interpolates, so no information is
  lost while avoiding float-formatting concerns.
* Filesystem effects of `write_control_signal` are modelled by an explicit
  file-system record plus two oracles (`backup_ok`, `write_ok`) saying whether
  the backup copy and the final write raise an exception; the Python
  `try/except` control flow (one handler around both steps) is translated
  directly.
-/

/-- The three optimization modes returned by `determine_optimization_mode`. -/
inductive Mode where
  | moderate
  | adaptive
  | ultra
deriving DecidableEq

/-- The threshold dictionary `{"moderate": _, "adaptive": _, "ultra": _}`. -/
structure Thresholds where
  moderate : ℚ
  adaptive : ℚ
  ultra : ℚ
deriving DecidableEq

/-- Constructor defaults: `{"moderate": 300.0, "adaptive": 375.0, "ultra": 450.0}`. -/
def default_thresholds : Thresholds := ⟨300, 375, 450⟩

/-- Python `int()` applied to a float/rational: truncation toward zero. -/
def pyInt (q : ℚ) : ℤ := if 0 ≤ q then ⌊q⌋ else ⌈q⌉

/-- `PhoenixCardinalityObserver.determine_optimization_mode`, translated
branch-for-branch from the Python source (observer lines 75-93). -/
def determine_optimization_mode (t : Thresholds) (cardinality_count : ℕ) :
    Mode × ℤ :=
  if (cardinality_count : ℚ) ≤ t.moderate then
    (Mode.moderate, 0)
  else if (cardinality_count : ℚ) ≤ t.adaptive then
    let range_size := t.adaptive - t.moderate
    let position := (cardinality_count : ℚ) - t.moderate
    let opt_level := pyInt (26 + (position / range_size) * 49)
    (Mode.adaptive, min 75 (max 26 opt_level))
  else
    let excess := (cardinality_count : ℚ) - t.adaptive
    let max_excess := t.ultra - t.adaptive
    if excess ≥ max_excess then
      (Mode.ultra, 100)
    else
      let opt_level := pyInt (76 + (excess / max_excess) * 24)
      (Mode.ultra, min 100 (max 76 opt_level))

/-- The observer's mutable fields `current_mode`, `last_cardinality_count`,
`mode_change_count` (initialised to `"moderate"`, `0`, `0`). -/
structure LoopState where
  current_mode : Mode
  last_cardinality_count : ℕ
  mode_change_count : ℕ
deriving DecidableEq

/-- Observer state right after `__init__`. -/
def initial_state : LoopState := ⟨Mode.moderate, 0, 0⟩

/-- The dictionary returned by `get_cardinality_metrics` (the `timestamp`
field, pure wall-clock metadata, is abstracted away). -/
structure CardinalityData where
  cardinality_count : ℕ
  total_metrics : ℕ
  sample_metrics : List (List Char)
deriving DecidableEq

/-- The `reason` f-string of `generate_control_signal`, as data: either
`"Mode change: old → new (cardinality: n)"` or
`"Cardinality update: n series (change: +d)"`. -/
inductive Reason where
  | modeChange (fromMode toMode : Mode) (cardinality : ℕ)
  | cardinalityUpdate (series : ℕ) (change : ℕ)
deriving DecidableEq

/-- The control-signal dictionary built by `generate_control_signal`
(observer lines 115-139), with its nested `state` and
`observer_metadata.cardinality_analysis` maps flattened into fields.
`last_updated`, `config_version`, `correlation_id` and
`transition_timestamp` all derive from the emission timestamp `ts`. -/
structure ControlSignal where
  mode : Mode
  last_updated : ℕ
  reason : Reason
  ts_count : ℕ
  config_version : ℕ
  correlation_id : ℕ
  optimization_level : ℤ
  thresholds : Thresholds
  previous_mode : Mode
  transition_timestamp : ℕ
  transition_duration_seconds : ℕ
  stability_period_seconds : ℕ
  mode_changes_total : ℕ
  total_phoenix_metrics : ℕ
  unique_time_series : ℕ
  reduction_potential : ℚ
  sample_metrics : List (List Char)
deriving DecidableEq

/-- `PhoenixCardinalityObserver.generate_control_signal` (observer lines
95-147): classify, decide whether to emit, build the signal, and update the
mutable state.  The Python method mutates `self` and returns the signal or
`None`; here the post-state is returned alongside. -/
def generate_control_signal (t : Thresholds) (st : LoopState)
    (d : CardinalityData) (ts : ℕ) : Option ControlSignal × LoopState :=
  let cardinality_count := d.cardinality_count
  let classified := determine_optimization_mode t cardinality_count
  let new_mode := classified.1
  let optimization_level := classified.2
  let cardinality_change :=
    ((cardinality_count : ℤ) - (st.last_cardinality_count : ℤ)).natAbs
  let significant_change := 50 < cardinality_change
  if new_mode ≠ st.current_mode ∨ significant_change then
    let new_change_count :=
      if new_mode ≠ st.current_mode then st.mode_change_count + 1
      else st.mode_change_count
    let reason :=
      if new_mode ≠ st.current_mode then
        Reason.modeChange st.current_mode new_mode cardinality_count
      else
        Reason.cardinalityUpdate cardinality_count cardinality_change
    let control_signal : ControlSignal :=
      { mode := new_mode
        last_updated := ts
        reason := reason
        ts_count := cardinality_count
        config_version := ts
        correlation_id := ts
        optimization_level := optimization_level
        thresholds := t
        previous_mode := st.current_mode
        transition_timestamp := ts
        transition_duration_seconds := 0
        stability_period_seconds := 300
        mode_changes_total := new_change_count
        total_phoenix_metrics := d.total_metrics
        unique_time_series := cardinality_count
        reduction_potential := max 0 ((cardinality_count : ℚ) - t.moderate)
        sample_metrics := d.sample_metrics }
    (some control_signal, ⟨new_mode, cardinality_count, new_change_count⟩)
  else
    (none, st)

/-- The two files `write_control_signal` touches: the control file and its
`.backup` sibling; `none` means the file does not exist.  Contents are
modelled as the signal value written (the YAML serialisation is injective on
the fields we track). -/
structure FS where
  control_file : Option ControlSignal
  backup_file : Option ControlSignal
deriving DecidableEq

/-- `PhoenixCardinalityObserver.write_control_signal` (observer lines
149-170).  `backup_ok` / `write_ok` say whether the backup copy and the new
write raise.  Both steps sit inside one `try`: an exception while copying the
backup jumps straight to the `except` handler, so the new signal is never
written on that path and the method returns `False`. -/
def write_control_signal (fs : FS) (sig : ControlSignal)
    (backup_ok write_ok : Bool) : Bool × FS :=
  match fs.control_file with
  | some prev =>
    if backup_ok then
      let fs1 : FS := ⟨fs.control_file, some prev⟩
      if write_ok then (true, { fs1 with control_file := some sig })
      else (false, fs1)
    else (false, fs)
  | none =>
    if write_ok then (true, { fs with control_file := some sig })
    else (false, fs)

/-- One iteration of the `run_observer` loop body (observer lines 184-229):
fetch (a `none` fetch result skips the cycle), decide, and write when a
signal was produced.  Logging and the pure status display are omitted; the
write's boolean result is only logged, never acted on. -/
def run_cycle (t : Thresholds) (st : LoopState) (fs : FS)
    (fetched : Option CardinalityData) (ts : ℕ)
    (backup_ok write_ok : Bool) : LoopState × FS :=
  match fetched with
  | none => (st, fs)
  | some d =>
    match generate_control_signal t st d ts with
    | (none, st1) => (st1, fs)
    | (some sig, st1) => (st1, (write_control_signal fs sig backup_ok write_ok).2)

/-- The arguments `main` parses for the observer (`--moderate-threshold`,
`--adaptive-threshold`, `--ultra-threshold`; the URL/file/interval flags do
not influence the control logic). -/
structure ObserveArgs where
  moderate_threshold : ℚ
  adaptive_threshold : ℚ
  ultra_threshold : ℚ
deriving DecidableEq

/-- Opening brace character, written by code point to keep it out of string
literals. -/
def lbrace : Char := Char.ofNat 123

/-- Closing brace character. -/
def rbrace : Char := Char.ofNat 125

/-- Python `s.split(sep)` for a one-character separator: split at every
occurrence, keeping empty segments (never raises, never drops input). -/
def splitOnChar (c : Char) : List Char → List (List Char)
  | [] => [[]]
  | x :: xs =>
    match splitOnChar c xs with
    | [] => [[]]
    | h :: t => if x = c then [] :: h :: t else (x :: h) :: t

/-- Python `s.startswith(p)` on character lists. -/
def startsWithL : List Char → List Char → Bool
  | [], _ => true
  | _ :: _, [] => false
  | p :: ps, s :: ss => p = s && startsWithL ps ss

/-- The namespace marker `"phoenix_"` that qualifying lines start with. -/
def phoenix_marker : List Char := ("phoenix_").toList

/-- The series key computed for one qualifying line (observer lines 50-59):
with a `{` present, `name#labels` where `labels` is everything between the
first `{` and the first `}` after it — when no `}` exists, Python
`split(rbrace)[0]` is simply the whole remainder, so the line is still
keyed and counted; without `{`, the first space-separated token. -/
def series_key (l : List Char) : List Char :=
  if l.contains lbrace then
    let parts := splitOnChar lbrace l
    let metric_name := parts.headI
    let labels_part := (splitOnChar rbrace parts.tail.headI).headI
    metric_name ++ '#' :: labels_part
  else
    (splitOnChar ' ' l).headI

/-- `PhoenixCardinalityObserver.get_cardinality_metrics` (observer lines
44-69) after a successful fetch: select lines starting with `phoenix_`
(the redundant `not startswith('#')` test is kept), key each one, and count
distinct keys against total qualifying lines.  Python's set is modelled by
`List.dedup`; the debug `sample_metrics` takes five keys (set iteration
order is abstracted as dedup order). -/
def get_cardinality_metrics (text : String) : CardinalityData :=
  let lines := splitOnChar '\n' text.toList
  let phoenix_metrics := lines.filter
    (fun l => startsWithL phoenix_marker l && !(startsWithL ['#'] l))
  let keys := phoenix_metrics.map series_key
  { cardinality_count := keys.dedup.length
    total_metrics := phoenix_metrics.length
    sample_metrics := keys.dedup.take 5 }

/-- Round half up, one of the two rounding conventions the spec allows for
the classifier's level formula. -/
def roundHalfUp (q : ℚ) : ℤ := ⌊q + 1 / 2⌋

/-- Round half to even (banker's rounding), the other convention the spec
allows. -/
def roundHalfEven (q : ℚ) : ℤ :=
  if q - ⌊q⌋ < 1 / 2 then ⌊q⌋
  else if 1 / 2 < q - ⌊q⌋ then ⌊q⌋ + 1
  else if ⌊q⌋ % 2 = 0 then ⌊q⌋ else ⌊q⌋ + 1

/-- Run `generate_control_signal` over a sequence of (sample, timestamp)
observations, collecting the emitted signals in order. -/
def gen_fold (t : Thresholds) (st : LoopState) :
    List (CardinalityData × ℕ) → LoopState × List ControlSignal
  | [] => (st, [])
  | (d, ts) :: rest =>
    match generate_control_signal t st d ts with
    | (none, st1) => gen_fold t st1 rest
    | (some sig, st1) =>
      let r := gen_fold t st1 rest
      (r.1, sig :: r.2)

/-- Specification-side tally: starting from `base`, the counter value each
emitted signal should record, incrementing exactly when the signal's mode
differs from its recorded previous mode. -/
def tally (base : ℕ) : List ControlSignal → List ℕ
  | [] => []
  | s :: rest =>
    let b := if s.mode ≠ s.previous_mode then base + 1 else base
    b :: tally b rest

/-- Startup path of `main` (observer lines 237-271, toolkit lines 675-760):
build the thresholds dictionary from the parsed flags, construct the
observer, and enter the loop.  The source performs no validation of the
threshold ordering anywhere on this path, so the result is always `ok`. -/
def main_startup (a : ObserveArgs) : Except String (Thresholds × LoopState) :=
  let thresholds : Thresholds :=
    ⟨a.moderate_threshold, a.adaptive_threshold, a.ultra_threshold⟩
  Except.ok (thresholds, initial_state)

/-- Python `int()` agrees with the floor on nonnegative arguments. -/
lemma pyInt_eq_floor {q : ℚ} (h : 0 ≤ q) : pyInt q = ⌊q⌋ := if_pos h

/-- Classifier, first branch: `count <= moderate`. -/
lemma det_tier1 (t : Thresholds) (c : ℕ) (h : (c : ℚ) ≤ t.moderate) :
    determine_optimization_mode t c = (Mode.moderate, 0) := by
  simp only [determine_optimization_mode]
  rw [if_pos h]

/-- Classifier, second branch: `moderate < count <= adaptive`. -/
lemma det_tier2 (t : Thresholds) (c : ℕ) (hm : t.moderate < (c : ℚ))
    (ha : (c : ℚ) ≤ t.adaptive) :
    determine_optimization_mode t c =
      (Mode.adaptive,
        min 75 (max 26
          (pyInt (26 + ((c : ℚ) - t.moderate) / (t.adaptive - t.moderate) * 49)))) := by
  simp only [determine_optimization_mode]
  rw [if_neg (not_le.mpr hm), if_pos ha]

/-- Classifier, third branch, saturated: `excess >= max_excess` gives level 100. -/
lemma det_tier3_sat (t : Thresholds) (c : ℕ) (hm : ¬ (c : ℚ) ≤ t.moderate)
    (ha : ¬ (c : ℚ) ≤ t.adaptive)
    (hs : t.ultra - t.adaptive ≤ (c : ℚ) - t.adaptive) :
    determine_optimization_mode t c = (Mode.ultra, 100) := by
  simp only [determine_optimization_mode]
  rw [if_neg hm, if_neg ha, if_pos hs]

/-- Classifier, third branch, unsaturated. -/
lemma det_tier3_unsat (t : Thresholds) (c : ℕ) (hm : ¬ (c : ℚ) ≤ t.moderate)
    (ha : ¬ (c : ℚ) ≤ t.adaptive)
    (hs : ¬ t.ultra - t.adaptive ≤ (c : ℚ) - t.adaptive) :
    determine_optimization_mode t c =
      (Mode.ultra,
        min 100 (max 76
          (pyInt (76 + ((c : ℚ) - t.adaptive) / (t.ultra - t.adaptive) * 24)))) := by
  simp only [determine_optimization_mode]
  rw [if_neg hm, if_neg ha, if_neg hs]

/-- The optimization level returned by any branch is nonnegative. -/
lemma level_nonneg (t : Thresholds) (c : ℕ) :
    0 ≤ (determine_optimization_mode t c).2 := by
  simp only [determine_optimization_mode]
  split_ifs
  · norm_num
  · exact le_trans (by norm_num) (le_min (by norm_num) (le_max_left _ _))
  · norm_num
  · exact le_trans (by norm_num) (le_min (by norm_num) (le_max_left _ _))

/-- The optimization level returned by any branch is at most 100. -/
lemma level_le_100 (t : Thresholds) (c : ℕ) :
    (determine_optimization_mode t c).2 ≤ 100 := by
  simp only [determine_optimization_mode]
  split_ifs
  · norm_num
  · exact le_trans (min_le_left _ _) (by norm_num)
  · norm_num
  · exact min_le_left _ _

/-- In the ultra tier the level is at least 76. -/
lemma level_ge_76_tier3 (t : Thresholds) (c : ℕ) (hm : ¬ (c : ℚ) ≤ t.moderate)
    (ha : ¬ (c : ℚ) ≤ t.adaptive) :
    76 ≤ (determine_optimization_mode t c).2 := by
  by_cases hs : t.ultra - t.adaptive ≤ (c : ℚ) - t.adaptive
  · rw [det_tier3_sat t c hm ha hs]; norm_num
  · rw [det_tier3_unsat t c hm ha hs]
    exact le_min (by norm_num) (le_max_left _ _)

/-- The classified mode in the third tier is `ultra` in both sub-branches. -/
lemma mode_tier3 (t : Thresholds) (c : ℕ) (hm : ¬ (c : ℚ) ≤ t.moderate)
    (ha : ¬ (c : ℚ) ≤ t.adaptive) :
    (determine_optimization_mode t c).1 = Mode.ultra := by
  by_cases hs : t.ultra - t.adaptive ≤ (c : ℚ) - t.adaptive
  · rw [det_tier3_sat t c hm ha hs]
  · rw [det_tier3_unsat t c hm ha hs]

/-- `generate_control_signal` when the emission condition fails: `None` is
returned and the observer state is untouched. -/
lemma gen_not_emit (t : Thresholds) (st : LoopState) (d : CardinalityData)
    (ts : ℕ)
    (h : ¬((determine_optimization_mode t d.cardinality_count).1 ≠ st.current_mode ∨
      50 < ((d.cardinality_count : ℤ) - (st.last_cardinality_count : ℤ)).natAbs)) :
    generate_control_signal t st d ts = (none, st) := by
  simp only [generate_control_signal]
  rw [if_neg h]

/-- `generate_control_signal` when the emission condition holds: the signal
dictionary is built and the observer state is updated before returning. -/
lemma gen_emit (t : Thresholds) (st : LoopState) (d : CardinalityData) (ts : ℕ)
    (h : (determine_optimization_mode t d.cardinality_count).1 ≠ st.current_mode ∨
      50 < ((d.cardinality_count : ℤ) - (st.last_cardinality_count : ℤ)).natAbs) :
    generate_control_signal t st d ts =
      (some
        { mode := (determine_optimization_mode t d.cardinality_count).1
          last_updated := ts
          reason :=
            if (determine_optimization_mode t d.cardinality_count).1 ≠ st.current_mode then
              Reason.modeChange st.current_mode
                (determine_optimization_mode t d.cardinality_count).1 d.cardinality_count
            else
              Reason.cardinalityUpdate d.cardinality_count
                ((d.cardinality_count : ℤ) - (st.last_cardinality_count : ℤ)).natAbs
          ts_count := d.cardinality_count
          config_version := ts
          correlation_id := ts
          optimization_level := (determine_optimization_mode t d.cardinality_count).2
          thresholds := t
          previous_mode := st.current_mode
          transition_timestamp := ts
          transition_duration_seconds := 0
          stability_period_seconds := 300
          mode_changes_total :=
            if (determine_optimization_mode t d.cardinality_count).1 ≠ st.current_mode then
              st.mode_change_count + 1
            else st.mode_change_count
          total_phoenix_metrics := d.total_metrics
          unique_time_series := d.cardinality_count
          reduction_potential := max 0 ((d.cardinality_count : ℚ) - t.moderate)
          sample_metrics := d.sample_metrics },
        ⟨(determine_optimization_mode t d.cardinality_count).1, d.cardinality_count,
          if (determine_optimization_mode t d.cardinality_count).1 ≠ st.current_mode then
            st.mode_change_count + 1
          else st.mode_change_count⟩) := by
  simp only [generate_control_signal]
  rw [if_pos h]

/-- Monotonicity of the optimization level in the count, for strictly
ordered thresholds. -/
lemma level_mono (t : Thresholds) (h1 : t.moderate < t.adaptive)
    {c1 c2 : ℕ} (hc : c1 ≤ c2) :
    (determine_optimization_mode t c1).2 ≤ (determine_optimization_mode t c2).2 := by
  have hq : (c1 : ℚ) ≤ (c2 : ℚ) := by exact_mod_cast hc
  by_cases hm1 : (c1 : ℚ) ≤ t.moderate
  · rw [det_tier1 t c1 hm1]
    exact level_nonneg t c2
  · have hm2 : ¬ (c2 : ℚ) ≤ t.moderate := fun h => hm1 (hq.trans h)
    by_cases ha1 : (c1 : ℚ) ≤ t.adaptive
    · by_cases ha2 : (c2 : ℚ) ≤ t.adaptive
      · -- both in the adaptive tier
        rw [det_tier2 t c1 (not_le.mp hm1) ha1, det_tier2 t c2 (not_le.mp hm2) ha2]
        have hr : (0 : ℚ) < t.adaptive - t.moderate := by linarith
        have harg1 : (0 : ℚ) ≤ 26 + ((c1 : ℚ) - t.moderate) / (t.adaptive - t.moderate) * 49 := by
          have hp : (0 : ℚ) ≤ ((c1 : ℚ) - t.moderate) / (t.adaptive - t.moderate) :=
            div_nonneg (by linarith [not_le.mp hm1]) (le_of_lt hr)
          linarith
        have harg2 : (0 : ℚ) ≤ 26 + ((c2 : ℚ) - t.moderate) / (t.adaptive - t.moderate) * 49 := by
          have hp : (0 : ℚ) ≤ ((c2 : ℚ) - t.moderate) / (t.adaptive - t.moderate) :=
            div_nonneg (by linarith [not_le.mp hm2]) (le_of_lt hr)
          linarith
        simp only [pyInt_eq_floor harg1, pyInt_eq_floor harg2]
        refine min_le_min (le_refl _) (max_le_max (le_refl _) (Int.floor_le_floor ?_))
        gcongr
      · -- c1 adaptive tier, c2 ultra tier
        calc (determine_optimization_mode t c1).2 ≤ 75 := by
              rw [det_tier2 t c1 (not_le.mp hm1) ha1]
              exact min_le_left _ _
          _ ≤ 76 := by norm_num
          _ ≤ (determine_optimization_mode t c2).2 := level_ge_76_tier3 t c2 hm2 ha2
    · -- both in the ultra tier
      have ha2 : ¬ (c2 : ℚ) ≤ t.adaptive := fun h => ha1 (hq.trans h)
      by_cases hs1 : t.ultra - t.adaptive ≤ (c1 : ℚ) - t.adaptive
      · have hs2 : t.ultra - t.adaptive ≤ (c2 : ℚ) - t.adaptive := by linarith
        rw [det_tier3_sat t c1 hm1 ha1 hs1, det_tier3_sat t c2 hm2 ha2 hs2]
      · by_cases hs2 : t.ultra - t.adaptive ≤ (c2 : ℚ) - t.adaptive
        · rw [det_tier3_sat t c2 hm2 ha2 hs2]
          exact level_le_100 t c1
        · rw [det_tier3_unsat t c1 hm1 ha1 hs1, det_tier3_unsat t c2 hm2 ha2 hs2]
          have hr : (0 : ℚ) < t.ultra - t.adaptive := by linarith
          have harg1 : (0 : ℚ) ≤ 76 + ((c1 : ℚ) - t.adaptive) / (t.ultra - t.adaptive) * 24 := by
            have hp : (0 : ℚ) ≤ ((c1 : ℚ) - t.adaptive) / (t.ultra - t.adaptive) :=
              div_nonneg (by linarith [not_le.mp ha1]) (le_of_lt hr)
            linarith
          have harg2 : (0 : ℚ) ≤ 76 + ((c2 : ℚ) - t.adaptive) / (t.ultra - t.adaptive) * 24 := by
            have hp : (0 : ℚ) ≤ ((c2 : ℚ) - t.adaptive) / (t.ultra - t.adaptive) :=
              div_nonneg (by linarith [not_le.mp ha2]) (le_of_lt hr)
            linarith
          simp only [pyInt_eq_floor harg1, pyInt_eq_floor harg2]
          refine min_le_min (le_refl _) (max_le_max (le_refl _) (Int.floor_le_floor ?_))
          gcongr

/-- Claim C1, counterexample.  At thresholds (300, 375, 450) and count 301
the exact level value is 26 + (1/75)·49 = 26.653…, which rounds to 27 under
both half-up and banker's rounding (and survives the [26, 75] clamp as 27),
yet the code returns 26: Python `int()` truncates instead of rounding. -/
theorem C1_round_counterexample :
    determine_optimization_mode default_thresholds 301 = (Mode.adaptive, 26) ∧
    roundHalfUp (26 + ((301 : ℚ) - default_thresholds.moderate) /
      (default_thresholds.adaptive - default_thresholds.moderate) * 49) = 27 ∧
    roundHalfEven (26 + ((301 : ℚ) - default_thresholds.moderate) /
      (default_thresholds.adaptive - default_thresholds.moderate) * 49) = 27 ∧
    min 75 (max 26 (27 : ℤ)) = 27 ∧ (26 : ℤ) ≠ 27 := by
  refine ⟨?_, ?_, ?_, by norm_num, by norm_num⟩
  · norm_num [determine_optimization_mode, pyInt, default_thresholds]
  · norm_num [roundHalfUp, default_thresholds]
  · norm_num [roundHalfEven, default_thresholds]

/-- Claim C1 (corrected): for strictly ordered thresholds and
moderate < count ≤ adaptive, the classifier returns mode `adaptive` with
level = ⌊26 + (count − moderate)/(adaptive − moderate)·49⌋ — Python `int()`
truncation toward zero, equal to the floor since the operand is positive —
clamped to [26, 75]. -/
theorem C1_adaptive_level_floor (t : Thresholds) (h1 : t.moderate < t.adaptive)
    (h2 : t.adaptive < t.ultra) (c : ℕ) (hm : t.moderate < (c : ℚ))
    (ha : (c : ℚ) ≤ t.adaptive) :
    determine_optimization_mode t c =
      (Mode.adaptive,
        min 75 (max 26 ⌊26 + ((c : ℚ) - t.moderate) / (t.adaptive - t.moderate) * 49⌋)) := by
  rw [det_tier2 t c hm ha]
  have hp : (0 : ℚ) ≤ ((c : ℚ) - t.moderate) / (t.adaptive - t.moderate) :=
    div_nonneg (by linarith) (by linarith)
  rw [pyInt_eq_floor (by linarith)]

/-- Claim C1, witness: the corrected statement instantiated at the default
thresholds and count 337. -/
theorem C1_adaptive_level_floor_witness :
    determine_optimization_mode default_thresholds 337 =
      (Mode.adaptive,
        min 75 (max 26 ⌊26 + ((337 : ℚ) - default_thresholds.moderate) /
          (default_thresholds.adaptive - default_thresholds.moderate) * 49⌋)) :=
  C1_adaptive_level_floor default_thresholds
    (by norm_num [default_thresholds]) (by norm_num [default_thresholds]) 337
    (by norm_num [default_thresholds]) (by norm_num [default_thresholds])

/-- Claim C4: for fixed, strictly ordered thresholds the optimization level
is monotone non-decreasing in the count, and the mode boundaries are exact:
count ≤ moderate gives mode `moderate` (inclusive upper bound),
moderate < count ≤ adaptive gives `adaptive`, and count > adaptive gives
`ultra`. -/
theorem C4_level_monotone_mode_boundaries (t : Thresholds)
    (h1 : t.moderate < t.adaptive) (h2 : t.adaptive < t.ultra)
    (c1 c2 : ℕ) (hc : c1 ≤ c2) :
    (determine_optimization_mode t c1).2 ≤ (determine_optimization_mode t c2).2 ∧
    ((c1 : ℚ) ≤ t.moderate → (determine_optimization_mode t c1).1 = Mode.moderate) ∧
    (t.moderate < (c1 : ℚ) → (c1 : ℚ) ≤ t.adaptive →
      (determine_optimization_mode t c1).1 = Mode.adaptive) ∧
    (t.adaptive < (c1 : ℚ) → (determine_optimization_mode t c1).1 = Mode.ultra) := by
  refine ⟨level_mono t h1 hc, ?_, ?_, ?_⟩
  · intro h
    rw [det_tier1 t c1 h]
  · intro hm ha
    rw [det_tier2 t c1 hm ha]
  · intro ha
    exact mode_tier3 t c1 (by push_neg; linarith) (not_le.mpr ha)

/-- Claim C4, witness: monotonicity and the boundary facts instantiated at
the default thresholds with counts 310 ≤ 400. -/
theorem C4_level_monotone_mode_boundaries_witness :
    (determine_optimization_mode default_thresholds 310).2 ≤
      (determine_optimization_mode default_thresholds 400).2 ∧
    ((310 : ℚ) ≤ default_thresholds.moderate →
      (determine_optimization_mode default_thresholds 310).1 = Mode.moderate) ∧
    (default_thresholds.moderate < (310 : ℚ) → (310 : ℚ) ≤ default_thresholds.adaptive →
      (determine_optimization_mode default_thresholds 310).1 = Mode.adaptive) ∧
    (default_thresholds.adaptive < (310 : ℚ) →
      (determine_optimization_mode default_thresholds 310).1 = Mode.ultra) :=
  C4_level_monotone_mode_boundaries default_thresholds
    (by norm_num [default_thresholds]) (by norm_num [default_thresholds])
    310 400 (by norm_num)

/-- Claim C6: at the default thresholds (300, 375, 450) the classifier
returns (moderate, 0) at 300, (adaptive, 50) at 337, (ultra, 100) at 450 and
600, and for every count at or above the ultra threshold the level saturates
at exactly 100. -/
theorem C6_default_threshold_table (c : ℕ) (h : 450 ≤ c) :
    determine_optimization_mode default_thresholds 300 = (Mode.moderate, 0) ∧
    determine_optimization_mode default_thresholds 337 = (Mode.adaptive, 50) ∧
    determine_optimization_mode default_thresholds 450 = (Mode.ultra, 100) ∧
    determine_optimization_mode default_thresholds 600 = (Mode.ultra, 100) ∧
    determine_optimization_mode default_thresholds c = (Mode.ultra, 100) := by
  have hq : (450 : ℚ) ≤ (c : ℚ) := by exact_mod_cast h
  refine ⟨?_, ?_, ?_, ?_, ?_⟩
  · norm_num [determine_optimization_mode, pyInt, default_thresholds]
  · norm_num [determine_optimization_mode, pyInt, default_thresholds]
  · norm_num [determine_optimization_mode, pyInt, default_thresholds]
  · norm_num [determine_optimization_mode, pyInt, default_thresholds]
  · refine det_tier3_sat default_thresholds c ?_ ?_ ?_
    · simp only [default_thresholds]
      push_neg
      linarith
    · simp only [default_thresholds]
      push_neg
      linarith
    · simp only [default_thresholds]
      linarith

/-- Claim C6, witness: saturation at count 1000. -/
theorem C6_default_threshold_table_witness :
    determine_optimization_mode default_thresholds 300 = (Mode.moderate, 0) ∧
    determine_optimization_mode default_thresholds 337 = (Mode.adaptive, 50) ∧
    determine_optimization_mode default_thresholds 450 = (Mode.ultra, 100) ∧
    determine_optimization_mode default_thresholds 600 = (Mode.ultra, 100) ∧
    determine_optimization_mode default_thresholds 1000 = (Mode.ultra, 100) :=
  C6_default_threshold_table 1000 (by norm_num)

/-- Claim C2: the generator emits a signal iff the classified mode differs
from the current mode or the count moved by more than 50 in absolute value;
when it emits nothing, the loop state is unchanged and the cycle writes no
file. -/
theorem C2_emission_condition (t : Thresholds) (st : LoopState)
    (d : CardinalityData) (ts : ℕ) (fs : FS) (b w : Bool) :
    (((generate_control_signal t st d ts).1).isSome = true ↔
      ((determine_optimization_mode t d.cardinality_count).1 ≠ st.current_mode ∨
        50 < ((d.cardinality_count : ℤ) - (st.last_cardinality_count : ℤ)).natAbs)) ∧
    ((generate_control_signal t st d ts).1 = none →
      (generate_control_signal t st d ts).2 = st ∧
      run_cycle t st fs (some d) ts b w = (st, fs)) := by
  by_cases h : (determine_optimization_mode t d.cardinality_count).1 ≠ st.current_mode ∨
      50 < ((d.cardinality_count : ℤ) - (st.last_cardinality_count : ℤ)).natAbs
  · refine ⟨?_, ?_⟩
    · rw [gen_emit t st d ts h]
      exact ⟨fun _ => h, fun _ => rfl⟩
    · intro hn
      rw [gen_emit t st d ts h] at hn
      exact Option.noConfusion hn
  · refine ⟨?_, ?_⟩
    · rw [gen_not_emit t st d ts h]
      exact ⟨fun habs => Bool.noConfusion habs, fun hc => (h hc).elim⟩
    · intro _
      refine ⟨?_, ?_⟩
      · rw [gen_not_emit t st d ts h]
      · simp only [run_cycle, gen_not_emit t st d ts h]

/-- Claim C2, witness: at the default thresholds, state (moderate, 100, 0)
and a sample of 120 series, the mode is unchanged and |Δ| = 20 ≤ 50, so
nothing is emitted, the state survives untouched, and the cycle leaves the
filesystem alone. -/
theorem C2_emission_condition_witness :
    (((generate_control_signal default_thresholds ⟨Mode.moderate, 100, 0⟩
        ⟨120, 120, []⟩ 0).1).isSome = true ↔
      ((determine_optimization_mode default_thresholds
          (⟨120, 120, []⟩ : CardinalityData).cardinality_count).1 ≠
          (⟨Mode.moderate, 100, 0⟩ : LoopState).current_mode ∨
        50 < (((⟨120, 120, []⟩ : CardinalityData).cardinality_count : ℤ) -
          ((⟨Mode.moderate, 100, 0⟩ : LoopState).last_cardinality_count : ℤ)).natAbs)) ∧
    ((generate_control_signal default_thresholds ⟨Mode.moderate, 100, 0⟩
        ⟨120, 120, []⟩ 0).1 = none →
      (generate_control_signal default_thresholds ⟨Mode.moderate, 100, 0⟩
        ⟨120, 120, []⟩ 0).2 = ⟨Mode.moderate, 100, 0⟩ ∧
      run_cycle default_thresholds ⟨Mode.moderate, 100, 0⟩ ⟨none, none⟩
        (some ⟨120, 120, []⟩) 0 true true = (⟨Mode.moderate, 100, 0⟩, ⟨none, none⟩)) :=
  C2_emission_condition default_thresholds ⟨Mode.moderate, 100, 0⟩
    ⟨120, 120, []⟩ 0 ⟨none, none⟩ true true

/-- Claim C9: feeding the generator the same sample twice in a row never
yields two emissions — whatever the prior state, the second invocation
returns nothing. -/
theorem C9_no_double_emission (t : Thresholds) (st : LoopState)
    (d : CardinalityData) (ts1 ts2 : ℕ) :
    (generate_control_signal t (generate_control_signal t st d ts1).2 d ts2).1 = none := by
  by_cases h : (determine_optimization_mode t d.cardinality_count).1 ≠ st.current_mode ∨
      50 < ((d.cardinality_count : ℤ) - (st.last_cardinality_count : ℤ)).natAbs
  · have hst : (generate_control_signal t st d ts1).2 =
        ⟨(determine_optimization_mode t d.cardinality_count).1, d.cardinality_count,
          if (determine_optimization_mode t d.cardinality_count).1 ≠ st.current_mode then
            st.mode_change_count + 1
          else st.mode_change_count⟩ := by
      rw [gen_emit t st d ts1 h]
    rw [hst, gen_not_emit _ _ _ _ (by push_neg; exact ⟨rfl, by simp⟩)]
  · have hst : (generate_control_signal t st d ts1).2 = st := by
      rw [gen_not_emit t st d ts1 h]
    rw [hst, gen_not_emit t st d ts2 h]

/-- Claim C5: across every sequence of generator invocations, the
mode-change counter recorded in the emitted signals follows the tally that
increments exactly once per emission whose mode differs from its recorded
previous mode, and the final in-memory counter equals the initial one plus
the number of such mode-transition emissions — magnitude-only emissions and
non-emitting invocations leave it unchanged. -/
theorem C5_mode_change_counter (t : Thresholds) (st : LoopState)
    (samples : List (CardinalityData × ℕ)) :
    (gen_fold t st samples).2.map (fun s => s.mode_changes_total) =
      tally st.mode_change_count (gen_fold t st samples).2 ∧
    (gen_fold t st samples).1.mode_change_count =
      st.mode_change_count +
        ((gen_fold t st samples).2.filter
          (fun s => decide (s.mode ≠ s.previous_mode))).length := by
  induction samples generalizing st with
  | nil => simp [gen_fold, tally]
  | cons p rest ih =>
    obtain ⟨d, ts⟩ := p
    by_cases h : (determine_optimization_mode t d.cardinality_count).1 ≠ st.current_mode ∨
        50 < ((d.cardinality_count : ℤ) - (st.last_cardinality_count : ℤ)).natAbs
    · simp only [gen_fold, gen_emit t st d ts h]
      by_cases hm : (determine_optimization_mode t d.cardinality_count).1 ≠ st.current_mode
      · have hrec := ih ⟨(determine_optimization_mode t d.cardinality_count).1,
          d.cardinality_count, st.mode_change_count + 1⟩
        refine ⟨?_, ?_⟩
        · simp [tally, hm, hrec.1]
        · simp [hm, hrec.2]
          omega
      · have hm' : (determine_optimization_mode t d.cardinality_count).1 = st.current_mode :=
          not_ne_iff.mp hm
        have hrec := ih ⟨st.current_mode, d.cardinality_count, st.mode_change_count⟩
        refine ⟨?_, ?_⟩
        · simp only [tally, List.map_cons, hm']
          simp [tally, hrec.1]
        · simp only [hm']
          simpa using hrec.2
    · simp only [gen_fold, gen_not_emit t st d ts h]
      exact ih st

/-- Claim C3 (corrected): `generate_control_signal` commits the in-memory
state at decision time, before any write is attempted, so when the durable
write fails the loop continues with current mode and last count already set
to the emitted values, and the same sample on the next cycle produces no
emission — there is no retry. -/
theorem C3_state_committed_before_write (t : Thresholds) (st st1 : LoopState)
    (d : CardinalityData) (ts1 ts2 : ℕ) (fs : FS) (b : Bool) (sig : ControlSignal)
    (h : generate_control_signal t st d ts1 = (some sig, st1)) :
    run_cycle t st fs (some d) ts1 b false =
      (st1, (write_control_signal fs sig b false).2) ∧
    st1.current_mode = sig.mode ∧
    st1.last_cardinality_count = sig.ts_count ∧
    (generate_control_signal t st1 d ts2).1 = none := by
  by_cases hc : (determine_optimization_mode t d.cardinality_count).1 ≠ st.current_mode ∨
      50 < ((d.cardinality_count : ℤ) - (st.last_cardinality_count : ℤ)).natAbs
  · have he := gen_emit t st d ts1 hc
    rw [he] at h
    injection h with h1 h2
    injection h1 with h1
    subst h1
    subst h2
    refine ⟨?_, rfl, rfl, ?_⟩
    · simp only [run_cycle, he]
    · exact congrArg Prod.fst
        (gen_not_emit _ _ _ _ (by push_neg; exact ⟨rfl, by simp⟩))
  · rw [gen_not_emit t st d ts1 hc] at h
    exact absurd (congrArg Prod.fst h) (by simp)

/-- The signal emitted at the default thresholds from the initial state for
a sample of 400 series at timestamp 0 (used to instantiate C3). -/
def sigC3 : ControlSignal :=
  { mode := Mode.ultra
    last_updated := 0
    reason := Reason.modeChange Mode.moderate Mode.ultra 400
    ts_count := 400
    config_version := 0
    correlation_id := 0
    optimization_level := 84
    thresholds := default_thresholds
    previous_mode := Mode.moderate
    transition_timestamp := 0
    transition_duration_seconds := 0
    stability_period_seconds := 300
    mode_changes_total := 1
    total_phoenix_metrics := 400
    unique_time_series := 400
    reduction_potential := 100
    sample_metrics := [] }

/-- Claim C3, witness: concrete instance of the corrected statement with a
failing write (write oracle `false`). -/
theorem C3_state_committed_before_write_witness :
    run_cycle default_thresholds initial_state ⟨none, none⟩ (some ⟨400, 400, []⟩)
        0 true false =
      (⟨Mode.ultra, 400, 1⟩, (write_control_signal ⟨none, none⟩ sigC3 true false).2) ∧
    (⟨Mode.ultra, 400, 1⟩ : LoopState).current_mode = sigC3.mode ∧
    (⟨Mode.ultra, 400, 1⟩ : LoopState).last_cardinality_count = sigC3.ts_count ∧
    (generate_control_signal default_thresholds ⟨Mode.ultra, 400, 1⟩
      ⟨400, 400, []⟩ 1).1 = none :=
  C3_state_committed_before_write default_thresholds initial_state
    ⟨Mode.ultra, 400, 1⟩ ⟨400, 400, []⟩ 0 1 ⟨none, none⟩ true sigC3 (by
      have hd : determine_optimization_mode default_thresholds 400 = (Mode.ultra, 84) := by
        norm_num [determine_optimization_mode, pyInt, default_thresholds]
      rw [gen_emit default_thresholds initial_state ⟨400, 400, []⟩ 0
        (by left; simp [hd, initial_state])]
      have hmod : default_thresholds.moderate = 300 := rfl
      norm_num [hd, initial_state, sigC3, hmod]
      exact ⟨fun hy => Mode.noConfusion hy, fun hy => Mode.noConfusion hy⟩)

/-- Claim C3, counterexample to the claim as stated: after a cycle in which
the durable write fails, the loop state HAS been committed to the emitted
values (mode ultra, count 400), and the same sample on the next cycle emits
nothing — emission is not retried. -/
theorem C3_no_retry_counterexample :
    (run_cycle default_thresholds initial_state ⟨none, none⟩
        (some ⟨400, 400, []⟩) 0 true false).1.current_mode = Mode.ultra ∧
    (run_cycle default_thresholds initial_state ⟨none, none⟩
        (some ⟨400, 400, []⟩) 0 true false).1.last_cardinality_count = 400 ∧
    (generate_control_signal default_thresholds
      (run_cycle default_thresholds initial_state ⟨none, none⟩
        (some ⟨400, 400, []⟩) 0 true false).1 ⟨400, 400, []⟩ 1).1 = none := by
  have hd : determine_optimization_mode default_thresholds 400 = (Mode.ultra, 84) := by
    norm_num [determine_optimization_mode, pyInt, default_thresholds]
  have he := gen_emit default_thresholds initial_state ⟨400, 400, []⟩ 0
    (by left; simp [hd, initial_state])
  refine ⟨?_, ?_, ?_⟩
  · simp only [run_cycle, he]
    simp [hd]
  · simp only [run_cycle, he]
  · simp only [run_cycle, he]
    exact congrArg Prod.fst
      (gen_not_emit _ _ _ _ (by push_neg; exact ⟨rfl, by simp⟩))

/-- Claim C7 (corrected): `main` performs no threshold-ordering validation
at all — startup always succeeds, for every argument set, including those
violating moderate < adaptive < ultra, and the loop then runs with the
unvalidated thresholds. -/
theorem C7_no_startup_validation (a : ObserveArgs) :
    main_startup a =
      Except.ok (⟨a.moderate_threshold, a.adaptive_threshold, a.ultra_threshold⟩,
        initial_state) := rfl

/-- Claim C7, counterexample to the claim as stated: the inverted threshold
configuration (500, 100, 50) is accepted at startup — no non-zero exit — and
a full observer cycle then runs to completion with it. -/
theorem C7_invalid_config_runs_counterexample :
    main_startup ⟨500, 100, 50⟩ = Except.ok (⟨500, 100, 50⟩, initial_state) ∧
    ¬((500 : ℚ) < 100 ∧ (100 : ℚ) < 50) ∧
    run_cycle ⟨500, 100, 50⟩ initial_state ⟨none, none⟩ (some ⟨30, 30, []⟩) 0 true true =
      (initial_state, ⟨none, none⟩) := by
  refine ⟨rfl, by norm_num, ?_⟩
  have hd : determine_optimization_mode ⟨500, 100, 50⟩ 30 = (Mode.moderate, 0) :=
    det_tier1 _ _ (by norm_num)
  have hne : ¬((determine_optimization_mode ⟨500, 100, 50⟩
      (⟨30, 30, []⟩ : CardinalityData).cardinality_count).1 ≠
        initial_state.current_mode ∨
      50 < (((⟨30, 30, []⟩ : CardinalityData).cardinality_count : ℤ) -
        (initial_state.last_cardinality_count : ℤ)).natAbs) := by
    push_neg
    exact ⟨by simp [hd, initial_state], by simp [initial_state]⟩
  simp only [run_cycle, gen_not_emit ⟨500, 100, 50⟩ initial_state ⟨30, 30, []⟩ 0 hne]

/-- Claim C8 (corrected): the estimator is a total function — on every
scrape text the distinct-series count is at most the total-series count —
but a qualifying malformed line (opening brace, no closing brace) is NOT
skipped: it is counted, keyed by the metric name, `#`, and the entire
remainder after the opening brace. -/
theorem C8_estimator_total_malformed_counted (text : String) :
    (get_cardinality_metrics text).cardinality_count ≤
      (get_cardinality_metrics text).total_metrics ∧
    get_cardinality_metrics ("phoenix_bad\x7bx 1") =
      ⟨1, 1, [("phoenix_bad#x 1").toList]⟩ := by
  refine ⟨?_, by decide⟩
  simp only [get_cardinality_metrics]
  exact le_trans (List.Sublist.length_le (List.dedup_sublist _)) (by simp)

/-- Claim C8, counterexample to the claim as stated: the malformed
qualifying line `phoenix_bad{x 1` (no closing brace) is not skipped — it
contributes 1 to the distinct-series count and 1 to the total-series count
instead of the claimed 0 and 0. -/
theorem C8_malformed_counted_counterexample :
    (get_cardinality_metrics ("phoenix_bad\x7bx 1")).cardinality_count = 1 ∧
    (get_cardinality_metrics ("phoenix_bad\x7bx 1")).total_metrics = 1 := by
  exact ⟨by decide, by decide⟩

/-- A concrete previously-persisted control signal (used for C10). -/
def prev_signal : ControlSignal :=
  { mode := Mode.moderate
    last_updated := 0
    reason := Reason.cardinalityUpdate 0 0
    ts_count := 0
    config_version := 0
    correlation_id := 0
    optimization_level := 0
    thresholds := default_thresholds
    previous_mode := Mode.moderate
    transition_timestamp := 0
    transition_duration_seconds := 0
    stability_period_seconds := 300
    mode_changes_total := 0
    total_phoenix_metrics := 0
    unique_time_series := 0
    reduction_potential := 0
    sample_metrics := [] }

/-- A distinct new control signal to be written over `prev_signal`. -/
def next_signal : ControlSignal :=
  { prev_signal with ts_count := 123, config_version := 1 }

/-- Claim C10 (corrected): when a previous signal file exists the store
copies it to the backup before overwriting; but because both steps share one
exception handler, a failure of the backup step aborts the whole write — the
new signal is not written, the previous content stays in place, and the
method reports failure. -/
theorem C10_backup_failure_blocks_write (fs : FS) (sig prev : ControlSignal)
    (h : fs.control_file = some prev) :
    write_control_signal fs sig false true = (false, fs) ∧
    write_control_signal fs sig false false = (false, fs) ∧
    write_control_signal fs sig true true = (true, ⟨some sig, some prev⟩) ∧
    write_control_signal fs sig true false = (false, ⟨some prev, some prev⟩) := by
  obtain ⟨cf, bf⟩ := fs
  simp only at h
  subst h
  exact ⟨rfl, rfl, rfl, rfl⟩

/-- Claim C10, witness: the corrected statement at a concrete filesystem
holding `prev_signal`. -/
theorem C10_backup_failure_blocks_write_witness :
    write_control_signal ⟨some prev_signal, none⟩ next_signal false true =
      (false, ⟨some prev_signal, none⟩) ∧
    write_control_signal ⟨some prev_signal, none⟩ next_signal false false =
      (false, ⟨some prev_signal, none⟩) ∧
    write_control_signal ⟨some prev_signal, none⟩ next_signal true true =
      (true, ⟨some next_signal, some prev_signal⟩) ∧
    write_control_signal ⟨some prev_signal, none⟩ next_signal true false =
      (false, ⟨some prev_signal, some prev_signal⟩) :=
  C10_backup_failure_blocks_write ⟨some prev_signal, none⟩ next_signal prev_signal rfl

/-- Claim C10, counterexample to the claim as stated: with a previous signal
present and a failing backup step, the write of the new signal does not
happen and the method reports failure (`False`) — not success with the new
signal written. -/
theorem C10_backup_failure_counterexample :
    write_control_signal ⟨some prev_signal, none⟩ next_signal false true =
      (false, ⟨some prev_signal, none⟩) ∧
    next_signal.ts_count ≠ prev_signal.ts_count :=
  ⟨rfl, by decide⟩
